import Mathlib

/-!
# Verification of the subscription merge pipeline (`merge.py`)

Shallow embedding of `merge.py`, the node aggregation and selection pipeline:
discovery of subscription sources, node extraction, quota parsing from
remarks, TCP latency probing and rank-and-filter selection.

Modelling conventions:
* Python machine floats are modelled as exact rationals (`ℚ`); `int(x)`
  truncation toward zero is `pyIntTrunc`.
* Exceptions are modelled with `Except Unit`; a Python function that cannot
  raise is a total Lean function.
* External effects (HTTP fetches, the TCP connect, and the stdlib
  `base64.b64decode` / `json.loads` / `urlparse` / `unquote` primitives)
  are modelled as oracle functions gathered in the `Ext` structure; the
  pipeline is a deterministic function of those oracles.
* The nondeterministic completion order of the thread pool is modelled by a
  universally quantified `shuffle` reordering of the probe inputs.
-/

set_option autoImplicit false

namespace MergePy

/-- Unicode whitespace as recognised by Python's `str.strip` and the regex
class `\s` (with full-width/CJK spaces, which the source comments call out). -/
def isSpaceChar (c : Char) : Bool :=
  c == ' ' || c == '\t' || c == '\n' || c == '\r' || c == '\x0b' || c == '\x0c' ||
  c == '\x1c' || c == '\x1d' || c == '\x1e' || c == '\x1f' || c == '\u0085' ||
  c == ' ' || c == ' ' || (0x2000 ≤ c.toNat && c.toNat ≤ 0x200a) ||
  c == ' ' || c == ' ' || c == ' ' || c == ' ' || c == '　'

/-- Python `str.strip()`: drop surrounding whitespace. -/
def pyStrip (s : String) : String :=
  String.mk (((s.data.dropWhile isSpaceChar).reverse.dropWhile isSpaceChar).reverse)

/-- Worker for `pyDedup`, carrying the set of already-emitted elements. -/
def pyDedupGo {α : Type} [DecidableEq α] (seen : List α) : List α → List α
  | [] => []
  | a :: rest => if a ∈ seen then pyDedupGo seen rest else a :: pyDedupGo (a :: seen) rest

/-- First-seen-order deduplication, as `dict.fromkeys` / incremental `set.add`
produce in the source. -/
def pyDedup {α : Type} [DecidableEq α] (l : List α) : List α := pyDedupGo [] l

theorem mem_pyDedupGo {α : Type} [DecidableEq α] (l : List α) :
    ∀ (seen : List α) (a : α), a ∈ pyDedupGo seen l ↔ a ∈ l ∧ a ∉ seen := by
  induction l with
  | nil => intro seen a; simp [pyDedupGo]
  | cons b rest ih =>
    intro seen a
    by_cases hb : b ∈ seen
    · rw [pyDedupGo, if_pos hb, ih]
      simp only [List.mem_cons]
      constructor
      · rintro ⟨h1, h2⟩; exact ⟨Or.inr h1, h2⟩
      · rintro ⟨rfl | h1, h2⟩
        · exact absurd hb h2
        · exact ⟨h1, h2⟩
    · rw [pyDedupGo, if_neg hb]
      simp only [List.mem_cons, ih]
      constructor
      · rintro (rfl | ⟨h1, h2⟩)
        · exact ⟨Or.inl rfl, hb⟩
        · exact ⟨Or.inr h1, fun hs => h2 (Or.inr hs)⟩
      · rintro ⟨rfl | h1, h2⟩
        · exact Or.inl rfl
        · by_cases hab : a = b
          · exact Or.inl hab
          · refine Or.inr ⟨h1, fun hs => ?_⟩
            rcases hs with h | h
            · exact hab h
            · exact h2 h

theorem nodup_pyDedupGo {α : Type} [DecidableEq α] (l : List α) :
    ∀ seen : List α, (pyDedupGo seen l).Nodup := by
  induction l with
  | nil => intro seen; simp [pyDedupGo]
  | cons b rest ih =>
    intro seen
    by_cases hb : b ∈ seen
    · rw [pyDedupGo, if_pos hb]; exact ih seen
    · rw [pyDedupGo, if_neg hb, List.nodup_cons]
      refine ⟨fun hmem => ?_, ih (b :: seen)⟩
      exact ((mem_pyDedupGo rest (b :: seen) b).mp hmem).2 (List.mem_cons_self b seen)

theorem mem_pyDedup {α : Type} [DecidableEq α] (l : List α) (a : α) :
    a ∈ pyDedup l ↔ a ∈ l := by
  simp [pyDedup, mem_pyDedupGo]

theorem nodup_pyDedup {α : Type} [DecidableEq α] (l : List α) : (pyDedup l).Nodup :=
  nodup_pyDedupGo l []

/-- Case-insensitive literal match (regex `re.IGNORECASE`), returning the
original matched characters and the remainder. -/
def ciMatch : List Char → List Char → Option (List Char × List Char)
  | [], cs => some ([], cs)
  | _ :: _, [] => Option.none
  | p :: ps, c :: cs =>
    if c.toLower == p.toLower then
      match ciMatch ps cs with
      | some (m, r) => some (c :: m, r)
      | Option.none => Option.none
    else Option.none

/-- Case-sensitive literal match. -/
def litMatch : List Char → List Char → Option (List Char × List Char)
  | [], cs => some ([], cs)
  | _ :: _, [] => Option.none
  | p :: ps, c :: cs =>
    if c == p then
      match litMatch ps cs with
      | some (m, r) => some (c :: m, r)
      | Option.none => Option.none
    else Option.none

/-- Greedy `class+` (at least one character); the character classes used in
the source never overlap with what follows them, so maximal munch agrees with
regex backtracking semantics. -/
def takeWhile1 (f : Char → Bool) (cs : List Char) : Option (List Char × List Char) :=
  let t := cs.takeWhile f
  if t.isEmpty then Option.none else some (t, cs.drop t.length)

/-- Character class `[A-Za-z0-9+/=._-]`, the vmess payload body of
`NODE_PATTERN`. -/
def vmessBodyChar (c : Char) : Bool :=
  (65 ≤ c.toNat && c.toNat ≤ 90) || (97 ≤ c.toNat && c.toNat ≤ 122) ||
  (48 ≤ c.toNat && c.toNat ≤ 57) ||
  c == '+' || c == '/' || c == '=' || c == '.' || c == '_' || c == '-'

/-- Character class `[^\s'"<>]` used for trojan/hysteria2 bodies and for
links extracted from the listing page (39 is the apostrophe). -/
def urlBodyChar (c : Char) : Bool :=
  !(isSpaceChar c) && c.toNat != 39 && c != '"' && c != '<' && c != '>'

/-- One attempt of `NODE_PATTERN` at the current position: ordered
alternation `vmess://…|trojan://…|hysteria2://…`, scheme case-insensitive. -/
def tryNodeAt (cs : List Char) : Option (List Char × List Char) :=
  match ciMatch "vmess://".data cs with
  | some (m, rest) =>
    match takeWhile1 vmessBodyChar rest with
    | some (b, r) => some (m ++ b, r)
    | Option.none => Option.none
  | Option.none =>
  match ciMatch "trojan://".data cs with
  | some (m, rest) =>
    match takeWhile1 urlBodyChar rest with
    | some (b, r) => some (m ++ b, r)
    | Option.none => Option.none
  | Option.none =>
  match ciMatch "hysteria2://".data cs with
  | some (m, rest) =>
    match takeWhile1 urlBodyChar rest with
    | some (b, r) => some (m ++ b, r)
    | Option.none => Option.none
  | Option.none => Option.none

/-- One attempt of the listing-link pattern `https?://[^\s"'<>]+` (this one is
case-sensitive: no `re.IGNORECASE` flag at the call site). -/
def tryLinkAt (cs : List Char) : Option (List Char × List Char) :=
  match litMatch "https://".data cs with
  | some (m, rest) =>
    match takeWhile1 urlBodyChar rest with
    | some (b, r) => some (m ++ b, r)
    | Option.none => Option.none
  | Option.none =>
  match litMatch "http://".data cs with
  | some (m, rest) =>
    match takeWhile1 urlBodyChar rest with
    | some (b, r) => some (m ++ b, r)
    | Option.none => Option.none
  | Option.none => Option.none

/-- Left-to-right non-overlapping scan, as `re.finditer` / `re.findall`:
on a match continue after it, otherwise advance one character. The fuel is
always instantiated with more than the length of the text. -/
def scanTokens (tryAt : List Char → Option (List Char × List Char)) :
    Nat → List Char → List (List Char)
  | 0, _ => []
  | _ + 1, [] => []
  | fuel + 1, c :: rest =>
    match tryAt (c :: rest) with
    | some (tok, rem) => tok :: scanTokens tryAt fuel rem
    | Option.none => scanTokens tryAt fuel rest

/-- All `NODE_PATTERN` matches of a text, in order. -/
def pyFindallNodes (s : String) : List String :=
  (scanTokens tryNodeAt (s.data.length + 1) s.data).map String.mk

/-- All listing-link matches of a text, in order
(`re.findall(r'https?://[^\s"\x27<>]+', html)`). -/
def pyFindallLinks (s : String) : List String :=
  (scanTokens tryLinkAt (s.data.length + 1) s.data).map String.mk

/-- Python values as far as this program observes them: the results of
`json.loads` and the fields drawn from them. -/
inductive PyVal where
  | none : PyVal
  | bool : Bool → PyVal
  | int : ℤ → PyVal
  | float : ℚ → PyVal
  | str : String → PyVal
  | list : List PyVal → PyVal
  | dict : List (String × PyVal) → PyVal

/-- Python truthiness, as used by `if info:`, `if remark:`, `x or y`,
`if not host or not port:`. -/
def pyTruthy : PyVal → Bool
  | .none => false
  | .bool b => b
  | .int n => n != 0
  | .float q => q != 0
  | .str s => s != ""
  | .list xs => !xs.isEmpty
  | .dict kvs => !kvs.isEmpty

/-- Python `a or b`: `a` if truthy, else `b`. -/
def pyOr (a b : PyVal) : PyVal := if pyTruthy a then a else b

/-- Python `x.get(k)`: `None` default on a dict, `AttributeError` on any
other value. -/
def dictGet : PyVal → String → Except Unit PyVal
  | .dict kvs, k => .ok ((kvs.lookup k).getD .none)
  | _, _ => .error ()

/-- Decimal digit accumulation. -/
def digitsToNat (cs : List Char) : ℕ := cs.foldl (fun a c => 10 * a + (c.toNat - 48)) 0

/-- Python `int(s)` on a string: optional surrounding whitespace and sign,
then decimal digits; anything else raises (modelled as `Option.none`). -/
def parsePyIntStr (s : String) : Option ℤ :=
  match (pyStrip s).data with
  | [] => Option.none
  | c :: rest =>
    let signed : ℤ × List Char :=
      if c == '-' then (-1, rest) else if c == '+' then (1, rest) else (1, c :: rest)
    if !signed.2.isEmpty && signed.2.all (fun d => 48 ≤ d.toNat && d.toNat ≤ 57)
    then some (signed.1 * (digitsToNat signed.2 : ℤ)) else Option.none

/-- Python `int(x)` truncation toward zero on a (rational-modelled) float. -/
def pyIntTrunc (q : ℚ) : ℤ := if 0 ≤ q then ⌊q⌋ else ⌈q⌉

/-- Python `int(x)` over the values this program feeds it; raising cases are
`Option.none`. -/
def pyIntOf : PyVal → Option ℤ
  | .int n => some n
  | .bool b => some (if b then 1 else 0)
  | .float q => some (pyIntTrunc q)
  | .str s => parsePyIntStr s
  | _ => Option.none

/-- Python `float(s)` restricted to the digit/dot strings reachable in this
program (the quota regexes only produce characters from `[0-9,.]`, commas
removed before the call): at most one dot, at least one digit, nothing else.
The float is modelled as the exact decimal rational. -/
def parsePyFloat (s : String) : Option ℚ :=
  let cs := s.data
  if cs.isEmpty then Option.none
  else if !(cs.all fun c => (48 ≤ c.toNat && c.toNat ≤ 57) || c == '.') then Option.none
  else if 1 < (cs.filter (fun c => c == '.')).length then Option.none
  else if (cs.filter fun c => 48 ≤ c.toNat && c.toNat ≤ 57).isEmpty then Option.none
  else
    let ip := cs.takeWhile (fun c => c != '.')
    let fp := (cs.dropWhile (fun c => c != '.')).drop 1
    some (mkRat (digitsToNat (ip ++ fp)) (10 ^ fp.length))

/-- Remove every occurrence of a character (Python `str.replace(c, '')`). -/
def stripChars (bad : Char) (s : String) : String :=
  String.mk (s.data.filter (fun c => c != bad))

/-- Python `str.upper()` (ASCII; the unit tokens are ASCII). -/
def pyToUpper (s : String) : String := String.mk (s.data.map Char.toUpper)

/-- Python `str.lower()` (ASCII). -/
def pyToLower (s : String) : String := String.mk (s.data.map Char.toLower)

/-- `convert_size_to_bytes(num_str, unit_str)`: strip commas, parse the
number, normalise the unit by uppercasing and deleting dots, dispatch on the
power-of-1024 multiplier (unknown units fall back to 1), truncate to int.
A `float()` parse failure raises (`Except.error`). -/
def convert_size_to_bytes (num_str unit_str : String) : Except Unit ℤ :=
  match parsePyFloat (stripChars ',' num_str) with
  | Option.none => .error ()
  | some num =>
    let unit := stripChars '.' (pyToUpper unit_str)
    let mul : ℤ :=
      if unit == "B" || unit == "" then 1
      else if unit == "K" || unit == "KB" then 1024
      else if unit == "M" || unit == "MB" then 1024 ^ 2
      else if unit == "G" || unit == "GB" then 1024 ^ 3
      else if unit == "T" || unit == "TB" then 1024 ^ 4
      else 1
    .ok (pyIntTrunc (num * (mul : ℚ)))

/-- `_b64_fix_padding(s)`: strip whitespace, pad with `=` to a multiple of 4,
delegate to `base64.b64decode` (an oracle here: bytes on success, error on a
`binascii` failure). -/
def _b64_fix_padding (b64decode : String → Except Unit (List ℕ)) (s : String) :
    Except Unit (List ℕ) :=
  if (pyStrip s).length % 4 ≠ 0 then
    b64decode (pyStrip s ++ String.mk (List.replicate (4 - (pyStrip s).length % 4) '='))
  else b64decode (pyStrip s)

/-- Parsed URL view as exposed by `urllib.parse.urlparse` together with the
attribute accesses the source performs: `hostname` (`None` when absent),
`port` (whose accessor can raise `ValueError` on a malformed port, hence
`Except`; `None` when absent), and `fragment` (text after the first `#`,
`""` when absent). -/
structure UrlParts where
  hostname : Option String
  portRes : Except Unit (Option ℤ)
  fragment : String

/-- The external world: stdlib codec primitives and the network, modelled as
deterministic oracles. `listingFetch` is the overall outcome of
`fetch_with_retry` on `SOURCE_LISTING_URL` (its internal retry/backoff loop
is not observed by any claim); `classifyFetch` and `subFetch` are the two
separate GET passes over candidate links, `Option.none` meaning a raised
request failure; `tcpConnect` is the timed `socket.create_connection`,
`Option.none` meaning failure or timeout. -/
structure Ext where
  b64decode : String → Except Unit (List ℕ)
  utf8ignore : List ℕ → String
  jsonLoads : String → Except Unit PyVal
  urlParse : String → UrlParts
  pctUnquote : String → String
  listingFetch : Except Unit String
  classifyFetch : String → Option String
  subFetch : String → Option String
  tcpConnect : String → ℤ → Option ℚ

/-- Python slicing `s[n:]` (by code points). -/
def strDrop (s : String) (n : ℕ) : String := String.mk (s.data.drop n)

/-- Python `s.startswith(p)`. -/
def pyStartsWith (s p : String) : Bool := p.data.isPrefixOf s.data

/-- First branch of `decode_vmess_json_from_node`: a plain `node[8:]` slice,
strip, base64-decode with padding repair, decode UTF-8 ignoring errors,
`json.loads`. -/
def firstPathResult (E : Ext) (node : String) : Except Unit PyVal := do
  let raw ← _b64_fix_padding E.b64decode (pyStrip (strDrop node 8))
  E.jsonLoads (E.utf8ignore raw)

/-- `decode_vmess_json_from_node`: try the base64→UTF-8→JSON path; on any
failure there fall back to `json.loads` on the raw payload when the node
carries the `vmess://` scheme; if that also fails return `None`. A
successful parse of the JSON literal `null` likewise yields Python `None`:
the two are indistinguishable to the caller. -/
def decode_vmess_json_from_node (E : Ext) (node : String) : PyVal :=
  match firstPathResult E node with
  | .ok v => v
  | .error _ =>
    if pyStartsWith node "vmess://" then
      match E.jsonLoads (pyStrip (strDrop node 8)) with
      | .ok v => v
      | .error _ => PyVal.none
    else PyVal.none

/-- `[KMGT]` under `re.IGNORECASE`. -/
def kmgtChar (c : Char) : Bool :=
  c.toLower == 'k' || c.toLower == 'm' || c.toLower == 'g' || c.toLower == 't'

/-- `B` under `re.IGNORECASE`. -/
def bChar (c : Char) : Bool := c.toLower == 'b'

/-- The unit alternation `([KMGT]?B|[KMGT]?b|[KMGT]|GB|MB|KB|TB)` with
`re.IGNORECASE`, compiled to its deterministic reading: a KMGT letter
followed by a B, else a lone B, else a lone KMGT letter (the trailing
two-letter alternatives are subsumed by the first). -/
def unitAt : List Char → Option (List Char × List Char)
  | c1 :: c2 :: rest =>
    if kmgtChar c1 && bChar c2 then some ([c1, c2], rest)
    else if bChar c1 then some ([c1], c2 :: rest)
    else if kmgtChar c1 then some ([c1], c2 :: rest)
    else Option.none
  | [c1] =>
    if bChar c1 then some ([c1], [])
    else if kmgtChar c1 then some ([c1], [])
    else Option.none
  | [] => Option.none

/-- `[0-9,.]`. -/
def numChar (c : Char) : Bool := (48 ≤ c.toNat && c.toNat ≤ 57) || c == ',' || c == '.'

/-- `[:：]` (ASCII or full-width colon). -/
def colonChar (c : Char) : Bool := c == ':' || c == '：'

/-- One attempt of the first quota pattern
`剩余流量[:：]\s*([0-9,.]+)\s*UNIT` at the current position, returning the
number and unit capture groups. The character classes of consecutive pieces
are disjoint, so greedy maximal munch agrees with regex backtracking. -/
def matchQuota1At (cs : List Char) : Option (String × String) :=
  match litMatch "剩余流量".data cs with
  | some (_, r1) =>
    match r1 with
    | c :: r2 =>
      if colonChar c then
        let r3 := r2.dropWhile isSpaceChar
        match takeWhile1 numChar r3 with
        | some (num, r4) =>
          let r5 := r4.dropWhile isSpaceChar
          match unitAt r5 with
          | some (u, _) => some (String.mk num, String.mk u)
          | Option.none => Option.none
        | Option.none => Option.none
      else Option.none
    | [] => Option.none
  | Option.none => Option.none

/-- Label alternation `(剩余|remaining|remain)` of the second quota pattern
(`re.IGNORECASE` on the English variants); ordered alternatives. When
`remaining` matches, the `remain` alternative cannot yield an overall match
at the same position (an `i` follows), so no cross-alternative backtracking
is needed. -/
def labelAt (cs : List Char) : Option (List Char) :=
  match litMatch "剩余".data cs with
  | some (_, r) => some r
  | Option.none =>
  match ciMatch "remaining".data cs with
  | some (_, r) => some r
  | Option.none =>
  match ciMatch "remain".data cs with
  | some (_, r) => some r
  | Option.none => Option.none

/-- One attempt of the second quota pattern
`(剩余|remaining|remain)[:：]?\s*([0-9,.]+)\s*UNIT`. -/
def matchQuota2At (cs : List Char) : Option (String × String) :=
  match labelAt cs with
  | some r1 =>
    let r2 := match r1 with
      | c :: rest => if colonChar c then rest else r1
      | [] => r1
    let r3 := r2.dropWhile isSpaceChar
    match takeWhile1 numChar r3 with
    | some (num, r4) =>
      let r5 := r4.dropWhile isSpaceChar
      match unitAt r5 with
      | some (u, _) => some (String.mk num, String.mk u)
      | Option.none => Option.none
    | Option.none => Option.none
  | Option.none => Option.none

/-- `re.search`: leftmost position at which the pattern matches. -/
def searchAt (matchAt : List Char → Option (String × String)) :
    Nat → List Char → Option (String × String)
  | 0, _ => Option.none
  | _ + 1, [] => Option.none
  | fuel + 1, c :: rest =>
    match matchAt (c :: rest) with
    | some r => some r
    | Option.none => searchAt matchAt fuel rest

/-- Quota extraction from a (string) remark: the first pattern wins, else the
second; a `convert_size_to_bytes` failure is caught and degrades to `None`. -/
def quotaOfRemark (s : String) : Option ℤ :=
  match searchAt matchQuota1At (s.data.length + 1) s.data with
  | some (num, u) => (convert_size_to_bytes num u).toOption
  | Option.none =>
    match searchAt matchQuota2At (s.data.length + 1) s.data with
    | some (num, u) => (convert_size_to_bytes num u).toOption
    | Option.none => Option.none

/-- Python `node.split('#', 1)[1]`: everything after the first `#`. -/
def afterFirstHash (s : String) : String :=
  String.mk ((s.data.dropWhile (fun c => c != '#')).drop 1)

/-- Python `c in s` for a single character. -/
def containsChar (s : String) (c : Char) : Bool := s.data.contains c

/-- The remark value assembled inside the `try` block of
`parse_node_remark_and_remaining`; exceptions inside it (`.get` on a
non-dict) are caught there, leaving the remark `None`. The value is an
arbitrary `PyVal`: the source never checks that the JSON field is a
string. -/
def remarkValOf (E : Ext) (node : String) : PyVal :=
  if pyStartsWith node "vmess://" then
    let info := decode_vmess_json_from_node E node
    if pyTruthy info then
      match (do
        let a ← dictGet info "ps"
        let b ← dictGet info "remark"
        let c ← dictGet info "ps"
        let d ← dictGet info "remarks"
        pure (pyOr a (pyOr b (pyOr c d))) : Except Unit PyVal) with
      | .ok v => v
      | .error _ => PyVal.none
    else PyVal.none
  else
    let u := E.urlParse node
    let r1 : PyVal := if u.fragment != "" then .str (E.pctUnquote u.fragment) else .none
    if pyTruthy r1 then r1
    else if containsChar node '#' then .str (E.pctUnquote (afterFirstHash node))
    else r1

/-- `parse_node_remark_and_remaining`. The regex search sits outside the
`try` block: when the extracted remark is truthy but not a string,
`re.search` raises a `TypeError` that escapes the function (modelled as
`.error`). -/
def parse_node_remark_and_remaining (E : Ext) (node : String) :
    Except Unit (PyVal × Option ℤ) :=
  let r := remarkValOf E node
  if pyTruthy r then
    match r with
    | .str s => .ok (.str s, quotaOfRemark s)
    | _ => .error ()
  else .ok (r, Option.none)

/-- `parse_host_port`: host/port for the TCP probe. The whole body is
wrapped in `try`, with `(None, None)` on any escape; the inner `int(port)`
failure is caught separately and only nulls the port, keeping the host. -/
def parse_host_port (E : Ext) (node : String) : PyVal × Option ℤ :=
  if pyStartsWith node "vmess://" then
    let info := decode_vmess_json_from_node E node
    if pyTruthy info then
      match (do
        let a ← dictGet info "add"
        let b ← dictGet info "address"
        let c ← dictGet info "host"
        let p ← dictGet info "port"
        pure (pyOr a (pyOr b c), pyIntOf p) : Except Unit (PyVal × Option ℤ)) with
      | .ok hp => hp
      | .error _ => (.none, Option.none)
    else (.none, Option.none)
  else
    match (E.urlParse node).portRes with
    | .error _ => (.none, Option.none)
    | .ok p =>
      let h : PyVal := match (E.urlParse node).hostname with
        | some s => .str s
        | Option.none => .none
      (h, match p with
          | some v => if v == 0 then Option.none else some v
          | Option.none => Option.none)

/-- Truthiness of the port value (`not port`: both `None` and `0` are
falsy). -/
def portTruthy : Option ℤ → Bool
  | some v => v != 0
  | Option.none => false

/-- `tcp_test(host, port)`: `None` for falsy host or port, otherwise the
timed `socket.create_connection` (an oracle); any failure, timeout, or a
non-string host collapses to `None`. -/
def tcp_test (E : Ext) (host : PyVal) (port : Option ℤ) : Option ℚ :=
  if !(pyTruthy host) || !(portTruthy port) then Option.none
  else match host, port with
    | .str h, some p => E.tcpConnect h p
    | _, _ => Option.none

/-- `_test_item` without the tuple packaging: resolve host/port, return no
result when either is falsy, else probe. -/
def testLatency (E : Ext) (node : String) : Option ℚ :=
  let hp := parse_host_port E node
  if !(pyTruthy hp.1) || !(portTruthy hp.2) then Option.none
  else tcp_test E hp.1 hp.2

/-- `extract_nodes_from_text`: regex scan of the text itself, plus a scan of
its base64-decoded form when the whole blob decodes; accumulated into a set
(modelled as first-seen-order dedup: every claim concerns only the set).
Matches are `.strip()`ed as in the source (a no-op for these patterns). -/
def extract_nodes_from_text (E : Ext) (text : String) : List String :=
  let direct := (pyFindallNodes text).map pyStrip
  let decoded :=
    match _b64_fix_padding E.b64decode text with
    | .ok bs => (pyFindallNodes (E.utf8ignore bs)).map pyStrip
    | .error _ => []
  pyDedup (direct ++ decoded)

/-- Contiguous-sublist test on character lists. -/
def listInfix (needle : List Char) : List Char → Bool
  | [] => needle.isEmpty
  | c :: rest => needle.isPrefixOf (c :: rest) || listInfix needle rest

/-- Python `needle in hay` on strings (case-sensitive). -/
def containsSub (hay needle : String) : Bool := listInfix needle.data hay.data

/-- `is_likely_subscription_content`: a scheme token present directly, or
present after one base64 decode of the whole body. -/
def is_likely_subscription_content (E : Ext) (text : String) : Bool :=
  containsSub text "vmess://" || containsSub text "trojan://" ||
  containsSub text "hysteria2://" ||
  (match _b64_fix_padding E.b64decode text with
   | .ok bs =>
     let t := E.utf8ignore bs
     containsSub t "vmess://" || containsSub t "trojan://" || containsSub t "hysteria2://"
   | .error _ => false)

/-- `extract_links_from_listing`: all `https?://` tokens of the page,
deduplicated preserving first-seen order (`dict.fromkeys`). -/
def extract_links_from_listing (html : String) : List String :=
  pyDedup (pyFindallLinks html)

/-- The static-asset suffixes skipped during classification. -/
def staticExts : List String :=
  [".css", ".js", ".png", ".jpg", ".jpeg", ".svg", ".ico", ".woff", ".ttf"]

/-- Python `s.endswith(p)`. -/
def pyEndsWith (s p : String) : Bool := p.data.isSuffixOf s.data

/-- The `link.lower().endswith((...))` static-asset test of `main`. -/
def isStaticAsset (link : String) : Bool :=
  staticExts.any (fun ext => pyEndsWith (pyToLower link) ext)

/-- The `link.lower().startswith(('http://', 'https://'))` scheme test. -/
def isHttpLink (link : String) : Bool :=
  pyStartsWith (pyToLower link) "http://" || pyStartsWith (pyToLower link) "https://"

/-- The classification loop of `main`: keep a candidate link when it is not
an obvious static asset, has an http(s) scheme, its fetch succeeds and the
body sniffs as subscription content; any fetch failure just skips the
link. -/
def subscriptionUrls (E : Ext) (html : String) : List String :=
  (extract_links_from_listing html).filter fun link =>
    !(isStaticAsset link) && isHttpLink link &&
    (match E.classifyFetch link with
     | some txt => is_likely_subscription_content E txt
     | Option.none => false)

/-- Aggregation of extraction results over several source texts into one
deduplicated node set (the `all_nodes` accumulation of `main`). -/
def aggregateNodes (E : Ext) (texts : List String) : List String :=
  pyDedup (texts.flatMap (extract_nodes_from_text E))

/-- All node URIs of a run: download each confirmed subscription (failures
skipped), strip the body, extract and aggregate. -/
def allNodesOf (E : Ext) (html : String) : List String :=
  aggregateNodes E (((subscriptionUrls E html).filterMap E.subFetch).map pyStrip)

/-- One quota-filter survivor `(node, remain_bytes, remark)`. -/
structure Candidate where
  node : String
  remain : ℤ
  remark : PyVal

/-- `MIN_REMAIN_GB` converted to bytes: `int(5.0 * 1024 ** 3)`. -/
def minRemainBytes : ℤ := 5 * 1024 ^ 3

/-- `MAX_LATENCY` in seconds (`float(int(10))`). -/
def maxLatency : ℚ := 10

/-- Whether `parse_node_remark_and_remaining` raises on some node of the
run, which crashes `main` with an uncaught exception. -/
def anyParseError (E : Ext) (nodes : List String) : Bool :=
  nodes.any fun n => !(parse_node_remark_and_remaining E n).isOk

/-- The quota filter of `main`: keep nodes whose parsed remaining bytes are
known and at least the minimum (`remain_bytes >= min_remain_bytes`). -/
def candidatesOf (E : Ext) (nodes : List String) : List Candidate :=
  nodes.filterMap fun n =>
    match parse_node_remark_and_remaining E n with
    | .ok (r, some rb) => if minRemainBytes ≤ rb then some ⟨n, rb, r⟩ else Option.none
    | _ => Option.none

/-- One probe survivor `(latency, node, remain_bytes, remark)`. -/
structure Ranked where
  lat : ℚ
  node : String
  remain : ℤ
  remark : PyVal

/-- The probe filter: latency known and at most `MAX_LATENCY` (inclusive);
entries with falsy host or port never reach the probe. -/
def usableOf (E : Ext) (cands : List Candidate) : List Ranked :=
  cands.filterMap fun c =>
    match testLatency E c.node with
    | some lat =>
      if lat ≤ maxLatency then some ⟨lat, c.node, c.remain, c.remark⟩ else Option.none
    | Option.none => Option.none

/-- The latency order used by `usable.sort(key=lambda x: x[0])`. -/
def latLe (a b : Ranked) : Prop := a.lat ≤ b.lat

instance : DecidableRel latLe := fun a b => inferInstanceAs (Decidable (a.lat ≤ b.lat))

instance : IsTotal Ranked latLe := ⟨fun a b => le_total a.lat b.lat⟩

instance : IsTrans Ranked latLe := ⟨fun _ _ _ hab hbc => le_trans hab hbc⟩

/-- `usable.sort(key=lambda x: x[0])`: a stable sort by ascending latency
(Python's sort is stable; a stable sort by a total preorder is a unique
function of the input list, so any stable implementation models it). -/
def sortRanked (l : List Ranked) : List Ranked := l.insertionSort latLe

/-- The observable terminations of `main`. -/
inductive RunOutcome where
  | fetchFailed : RunOutcome
  | noSources : RunOutcome
  | crashed : RunOutcome
  | noQuotaSurvivors : RunOutcome
  | noLatencySurvivors : RunOutcome
  | wrote : List String → RunOutcome
deriving DecidableEq

/-- `OUTPUT_FILE`. -/
def OUTPUT_FILE : String := "sub.txt"

/-- `main`, as a function of the oracles and of the thread-pool completion
order: `shuffle` reorders the quota survivors before the probe/collect loop
(results arrive via `as_completed` in an arbitrary order); theorems
quantify over every permutation. -/
def mainRun (E : Ext) (shuffle : List Candidate → List Candidate) : RunOutcome :=
  match E.listingFetch with
  | .error _ => .fetchFailed
  | .ok html =>
    if (subscriptionUrls E html).isEmpty then .noSources
    else if anyParseError E (allNodesOf E html) then .crashed
    else if (candidatesOf E (allNodesOf E html)).isEmpty then .noQuotaSurvivors
    else if (usableOf E (shuffle (candidatesOf E (allNodesOf E html)))).isEmpty then
      .noLatencySurvivors
    else
      .wrote ((sortRanked (usableOf E (shuffle (candidatesOf E (allNodesOf E html))))).map
        Ranked.node)

/-- Process exit status of each outcome (`sys.exit(1)`, `sys.exit(0)`, an
uncaught exception, or normal completion). -/
def exitCode : RunOutcome → ℕ
  | .fetchFailed => 1
  | .noSources => 1
  | .crashed => 1
  | .noQuotaSurvivors => 0
  | .noLatencySurvivors => 0
  | .wrote _ => 0

/-- File content written for a list of survivor lines: one node per line,
nothing else. -/
def fileText (lines : List String) : String :=
  String.join (lines.map fun l => l ++ "\n")

/-- The files a run writes: only the `wrote` outcome opens `OUTPUT_FILE`. -/
def writesOf : RunOutcome → List (String × String)
  | .wrote lines => [(OUTPUT_FILE, fileText lines)]
  | _ => []

/-! ## Arithmetic helpers -/

theorem pyIntTrunc_intCast (n : ℤ) : pyIntTrunc (n : ℚ) = n := by
  unfold pyIntTrunc
  by_cases h : (0 : ℚ) ≤ (n : ℚ)
  · rw [if_pos h, Int.floor_intCast]
  · rw [if_neg h, Int.ceil_intCast]

theorem pyIntTrunc_mul_intCast (n m : ℤ) :
    pyIntTrunc ((n : ℚ) * ((m : ℤ) : ℚ)) = n * m := by
  rw [← Int.cast_mul, pyIntTrunc_intCast]

/-! ## C4: size-unit conversion -/

/-- C4: for every (number, unit) pair whose unit is a case-insensitive
member of B/KB/MB/GB/TB or a bare K/M/G/T, `convert_size_to_bytes` returns
number × 1024^k for the matching power k (k = 0 for B, 1 for K/KB, 2 for
M/MB, 3 for G/GB, 4 for T/TB); for any unit token it does not recognise it
returns the number unchanged (multiplier 1, bytes). -/
theorem convert_size_to_bytes_spec (n : ℤ) (s u : String)
    (hs : parsePyFloat (stripChars ',' s) = some (n : ℚ)) :
    (pyToUpper u = "B" → convert_size_to_bytes s u = .ok n) ∧
    (pyToUpper u = "K" ∨ pyToUpper u = "KB" →
      convert_size_to_bytes s u = .ok (n * 1024)) ∧
    (pyToUpper u = "M" ∨ pyToUpper u = "MB" →
      convert_size_to_bytes s u = .ok (n * 1024 ^ 2)) ∧
    (pyToUpper u = "G" ∨ pyToUpper u = "GB" →
      convert_size_to_bytes s u = .ok (n * 1024 ^ 3)) ∧
    (pyToUpper u = "T" ∨ pyToUpper u = "TB" →
      convert_size_to_bytes s u = .ok (n * 1024 ^ 4)) ∧
    (stripChars '.' (pyToUpper u) ∉
        (["B", "", "K", "KB", "M", "MB", "G", "GB", "T", "TB"] : List String) →
      convert_size_to_bytes s u = .ok n) := by
  refine ⟨?_, ?_, ?_, ?_, ?_, ?_⟩
  · intro h
    unfold convert_size_to_bytes
    rw [hs, h]
    exact congrArg Except.ok ((pyIntTrunc_mul_intCast n 1).trans (mul_one n))
  · intro h
    unfold convert_size_to_bytes
    rw [hs]
    rcases h with h | h <;> rw [h] <;>
      exact congrArg Except.ok (pyIntTrunc_mul_intCast n 1024)
  · intro h
    unfold convert_size_to_bytes
    rw [hs]
    rcases h with h | h <;> rw [h] <;>
      exact congrArg Except.ok (pyIntTrunc_mul_intCast n (1024 ^ 2))
  · intro h
    unfold convert_size_to_bytes
    rw [hs]
    rcases h with h | h <;> rw [h] <;>
      exact congrArg Except.ok (pyIntTrunc_mul_intCast n (1024 ^ 3))
  · intro h
    unfold convert_size_to_bytes
    rw [hs]
    rcases h with h | h <;> rw [h] <;>
      exact congrArg Except.ok (pyIntTrunc_mul_intCast n (1024 ^ 4))
  · intro h
    unfold convert_size_to_bytes
    simp only [hs]
    split_ifs with h1 h2 h3 h4 h5
    · simp only [Bool.or_eq_true, beq_iff_eq] at h1
      rcases h1 with h1 | h1 <;> exact absurd (by rw [h1]; decide) h
    · simp only [Bool.or_eq_true, beq_iff_eq] at h2
      rcases h2 with h2 | h2 <;> exact absurd (by rw [h2]; decide) h
    · simp only [Bool.or_eq_true, beq_iff_eq] at h3
      rcases h3 with h3 | h3 <;> exact absurd (by rw [h3]; decide) h
    · simp only [Bool.or_eq_true, beq_iff_eq] at h4
      rcases h4 with h4 | h4 <;> exact absurd (by rw [h4]; decide) h
    · simp only [Bool.or_eq_true, beq_iff_eq] at h5
      rcases h5 with h5 | h5 <;> exact absurd (by rw [h5]; decide) h
    · exact congrArg Except.ok ((pyIntTrunc_mul_intCast n 1).trans (mul_one n))

/-- C4 witness: a concrete instantiation, lowercase unit `gB` and the
unknown token `GiB`. -/
theorem convert_size_to_bytes_spec_witness :
    parsePyFloat (stripChars ',' "3") = some ((3 : ℤ) : ℚ) ∧
    convert_size_to_bytes "3" "gB" = .ok (3 * 1024 ^ 3) ∧
    convert_size_to_bytes "3" "GiB" = .ok 3 := by
  have h3 : parsePyFloat (stripChars ',' "3") = some ((3 : ℤ) : ℚ) := by rfl
  refine ⟨h3, ?_, ?_⟩
  · exact (convert_size_to_bytes_spec 3 "3" "gB" h3).2.2.2.1 (Or.inr (by decide))
  · exact (convert_size_to_bytes_spec 3 "3" "GiB" h3).2.2.2.2.2 (by decide)

/-! ## C6: base64 padding repair -/

/-- C6: for a base64 text from which `j ≤ 3` padding characters were
removed, `_b64_fix_padding` decodes exactly the stripped text with the
correct number of `=` appended (padding it back to a multiple of four). -/
theorem b64_fix_padding_spec (dec : String → Except Unit (List ℕ)) (s : String)
    (j : ℕ) (hj : j ≤ 3) (hlen : ((pyStrip s).length + j) % 4 = 0) :
    _b64_fix_padding dec s = dec (pyStrip s ++ String.mk (List.replicate j '=')) := by
  unfold _b64_fix_padding
  interval_cases j
  · have h0 : (pyStrip s).length % 4 = 0 := by omega
    rw [if_neg (by omega)]
    refine congrArg dec ?_
    refine (String.ext ?_).symm
    simp
  · have h1 : (pyStrip s).length % 4 = 3 := by omega
    rw [h1, if_pos (by decide)]
  · have h2 : (pyStrip s).length % 4 = 2 := by omega
    rw [h2, if_pos (by decide)]
  · have h3 : (pyStrip s).length % 4 = 1 := by omega
    rw [h3, if_pos (by decide)]

/-- C6 witness: `YWJjZA` (base64 of `abcd` minus its two `=`), with an
explicit decode oracle. -/
theorem b64_fix_padding_spec_witness :
    2 ≤ 3 ∧ ((pyStrip "YWJjZA").length + 2) % 4 = 0 ∧
    _b64_fix_padding (fun str => .ok (str.data.map Char.toNat)) "YWJjZA" =
      (fun str => .ok (str.data.map Char.toNat) : String → Except Unit (List ℕ))
        (pyStrip "YWJjZA" ++ String.mk (List.replicate 2 '=')) :=
  ⟨by decide, by decide,
    b64_fix_padding_spec (fun str => .ok (str.data.map Char.toNat)) "YWJjZA" 2
      (by decide) (by decide)⟩

/-! ## C7: deduplication of the aggregated node set -/

/-- C7: the aggregated node set is duplicate-free, and a URI extracted from
two source texts (or twice within one) appears in it exactly once. -/
theorem aggregateNodes_dedup_spec (E : Ext) (texts : List String)
    (uri t1 t2 : String) (h1 : t1 ∈ texts) (_h2 : t2 ∈ texts)
    (e1 : uri ∈ extract_nodes_from_text E t1)
    (_e2 : uri ∈ extract_nodes_from_text E t2) :
    (aggregateNodes E texts).count uri = 1 ∧ (aggregateNodes E texts).Nodup := by
  have hn : (aggregateNodes E texts).Nodup := nodup_pyDedup _
  have hm : uri ∈ aggregateNodes E texts := by
    rw [aggregateNodes, mem_pyDedup]
    exact List.mem_flatMap.mpr ⟨t1, h1, e1⟩
  exact ⟨List.count_eq_one_of_mem hn hm, hn⟩

/-- A trivial environment in which every oracle fails or is empty; used by
several witnesses (extraction then only sees the literal texts). -/
def E0 : Ext where
  b64decode := fun _ => .error ()
  utf8ignore := fun _ => ""
  jsonLoads := fun _ => .error ()
  urlParse := fun _ => ⟨Option.none, .ok Option.none, ""⟩
  pctUnquote := id
  listingFetch := .error ()
  classifyFetch := fun _ => Option.none
  subFetch := fun _ => Option.none
  tcpConnect := fun _ _ => Option.none

/-- C7 witness: the same trojan URI occurring in two texts is aggregated
exactly once. -/
theorem aggregateNodes_dedup_spec_witness :
    "trojan://a@b:1#r" ∈ extract_nodes_from_text E0 "x trojan://a@b:1#r y" ∧
    "trojan://a@b:1#r" ∈ extract_nodes_from_text E0 "trojan://a@b:1#r" ∧
    (aggregateNodes E0 ["x trojan://a@b:1#r y", "trojan://a@b:1#r"]).count
        "trojan://a@b:1#r" = 1 := by
  have e1 : "trojan://a@b:1#r" ∈ extract_nodes_from_text E0 "x trojan://a@b:1#r y" := by
    decide
  have e2 : "trojan://a@b:1#r" ∈ extract_nodes_from_text E0 "trojan://a@b:1#r" := by
    decide
  refine ⟨e1, e2, ?_⟩
  exact (aggregateNodes_dedup_spec E0 ["x trojan://a@b:1#r y", "trojan://a@b:1#r"]
    "trojan://a@b:1#r" "x trojan://a@b:1#r y" "trojan://a@b:1#r"
    (by decide) (by decide) e1 e2).1

/-! ## C5: parser exception safety -/

/-- Environment realising a vmess payload whose JSON remark field is the
integer 123: the oracles behave as the real stdlib codecs do on
`vmess://eyJwcyI6IDEyM30=` (base64 of the object text with `ps: 123`). -/
def E5 : Ext where
  b64decode := fun s =>
    if s = "eyJwcyI6IDEyM30=" then .ok [123, 34, 112, 115, 34, 58, 32, 49, 50, 51, 125]
    else .error ()
  utf8ignore := fun bs =>
    if bs = [123, 34, 112, 115, 34, 58, 32, 49, 50, 51, 125] then "\x7b\"ps\": 123\x7d"
    else ""
  jsonLoads := fun s =>
    if s = "\x7b\"ps\": 123\x7d" then .ok (.dict [("ps", .int 123)]) else .error ()
  urlParse := fun _ => ⟨Option.none, .ok Option.none, ""⟩
  pctUnquote := id
  listingFetch := .error ()
  classifyFetch := fun _ => Option.none
  subFetch := fun _ => Option.none
  tcpConnect := fun _ _ => Option.none

/-- C5 counterexample: on a vmess node whose payload decodes to a JSON
object with the numeric remark field `ps: 123`, the remark is truthy but not
a string, and the `re.search` call (outside the `try` block) raises a
`TypeError` that escapes `parse_node_remark_and_remaining`. -/
theorem parse_remark_raises_counterexample :
    parse_node_remark_and_remaining E5 "vmess://eyJwcyI6IDEyM30=" = .error () := by
  rfl

/-- C5 (amended): `parse_host_port` never raises (a falsy vmess decode
yields `(None, None)` and the `int(port)` failure is contained), and
`parse_node_remark_and_remaining` returns a pair without raising whenever
the extracted remark value is a string or falsy; internal decode failures
degrade to absent fields. (A truthy non-string remark instead escapes as a
`TypeError`, as the counterexample shows.) -/
theorem parse_never_raises_amended (E : Ext) (node : String)
    (h : pyTruthy (remarkValOf E node) = true → ∃ s, remarkValOf E node = .str s) :
    (∃ r rb, parse_node_remark_and_remaining E node = .ok (r, rb)) ∧
    (pyStartsWith node "vmess://" = true →
      pyTruthy (decode_vmess_json_from_node E node) = false →
      parse_host_port E node = (.none, Option.none)) := by
  constructor
  · by_cases ht : pyTruthy (remarkValOf E node) = true
    · obtain ⟨s, hs⟩ := h ht
      refine ⟨.str s, quotaOfRemark s, ?_⟩
      unfold parse_node_remark_and_remaining
      rw [hs] at ht ⊢
      rw [if_pos ht]
    · refine ⟨remarkValOf E node, Option.none, ?_⟩
      unfold parse_node_remark_and_remaining
      rw [if_neg ht]
  · intro hv hf
    simp [parse_host_port, hv, hf]

/-- C5 witness: a non-vmess node parses without raising, and a vmess node
whose payload decodes to nothing yields `(None, None)` from
`parse_host_port`. -/
theorem parse_never_raises_amended_witness :
    (∃ r rb, parse_node_remark_and_remaining E0 "x" = .ok (r, rb)) ∧
    parse_host_port E0 "vmess://x" = (.none, Option.none) :=
  ⟨(parse_never_raises_amended E0 "x"
      (fun ht => absurd ht (by decide))).1,
   (parse_never_raises_amended E0 "vmess://x"
      (fun ht => absurd ht (by decide))).2 (by decide) (by decide)⟩

/-! ## C8: vmess host/port derivation on a non-numeric port -/

/-- The vmess node whose payload is base64 of the object text
`\x7b"add":"1.2.3.4","port":"abc"\x7d` (a non-numeric port). -/
def abcPortNode : String := "vmess://eyJhZGQiOiIxLjIuMy40IiwicG9ydCI6ImFiYyJ9"

/-- Environment realising `abcPortNode`: the oracles behave exactly as the
real stdlib codecs do on its payload — the 40-character base64 text decodes
to the JSON object bytes, UTF-8 decoding yields the object text, and
`json.loads` parses the dict with the string port `"abc"`. -/
def E8 : Ext where
  b64decode := fun s =>
    if s = "eyJhZGQiOiIxLjIuMy40IiwicG9ydCI6ImFiYyJ9" then
      .ok [123, 34, 97, 100, 100, 34, 58, 34, 49, 46, 50, 46, 51, 46, 52, 34, 44,
           34, 112, 111, 114, 116, 34, 58, 34, 97, 98, 99, 34, 125]
    else .error ()
  utf8ignore := fun bs =>
    if bs = [123, 34, 97, 100, 100, 34, 58, 34, 49, 46, 50, 46, 51, 46, 52, 34, 44,
             34, 112, 111, 114, 116, 34, 58, 34, 97, 98, 99, 34, 125] then
      "\x7b\"add\":\"1.2.3.4\",\"port\":\"abc\"\x7d"
    else ""
  jsonLoads := fun s =>
    if s = "\x7b\"add\":\"1.2.3.4\",\"port\":\"abc\"\x7d" then
      .ok (.dict [("add", .str "1.2.3.4"), ("port", .str "abc")])
    else .error ()
  urlParse := fun _ => ⟨Option.none, .ok Option.none, ""⟩
  pctUnquote := id
  listingFetch := .error ()
  classifyFetch := fun _ => Option.none
  subFetch := fun _ => Option.none
  tcpConnect := fun _ _ => Option.none

/-- C8 counterexample: with a non-numeric port the source returns
`(host, None)` — the parsed host is kept, not reported absent. -/
theorem parse_host_port_nonnumeric_counterexample :
    parse_host_port E8 abcPortNode = (.str "1.2.3.4", Option.none) ∧
    PyVal.str "1.2.3.4" ≠ PyVal.none := by
  refine ⟨by rfl, ?_⟩
  intro hc
  exact PyVal.noConfusion hc

/-- C8 (amended): for a vmess node whose decoded JSON object has a
non-numeric port, `parse_host_port` reports the port as absent while
returning the host chain as parsed (not fatal); downstream the node is
excluded from probing because the port is missing. -/
theorem parse_host_port_nonnumeric_amended (E : Ext) (node : String)
    (kvs : List (String × PyVal))
    (hv : pyStartsWith node "vmess://" = true)
    (hd : decode_vmess_json_from_node E node = .dict kvs)
    (hne : kvs ≠ [])
    (hp : pyIntOf ((kvs.lookup "port").getD .none) = Option.none) :
    parse_host_port E node =
      (pyOr ((kvs.lookup "add").getD .none)
        (pyOr ((kvs.lookup "address").getD .none) ((kvs.lookup "host").getD .none)),
       Option.none) ∧
    testLatency E node = Option.none := by
  cases kvs with
  | nil => exact absurd rfl hne
  | cons p tl =>
    have hmain : parse_host_port E node =
        (pyOr (((p :: tl).lookup "add").getD .none)
          (pyOr (((p :: tl).lookup "address").getD .none)
            (((p :: tl).lookup "host").getD .none)),
         pyIntOf (((p :: tl).lookup "port").getD .none)) := by
      unfold parse_host_port
      rw [if_pos hv, hd]
      rfl
    rw [hp] at hmain
    refine ⟨hmain, ?_⟩
    simp [testLatency, hmain, portTruthy, Bool.or_true]

/-- C8 witness: concrete evaluation of the amended statement on `E8`. -/
theorem parse_host_port_nonnumeric_amended_witness :
    (parse_host_port E8 abcPortNode).2 = Option.none ∧
    testLatency E8 abcPortNode = Option.none := by
  have h := parse_host_port_nonnumeric_amended E8 abcPortNode
    [("add", .str "1.2.3.4"), ("port", .str "abc")] (by decide) (by rfl)
    (by intro hc; exact List.noConfusion hc) (by rfl)
  exact ⟨by rw [h.1], h.2⟩

/-! ## C10: the direct-JSON fallback of the vmess decoder -/

/-- Environment realising a vmess payload that base64-decodes to the JSON
literal `null` (real behaviour on `vmess://bnVsbA==`). -/
def E10 : Ext where
  b64decode := fun s =>
    if s = "bnVsbA==" then .ok [110, 117, 108, 108] else .error ()
  utf8ignore := fun bs => if bs = [110, 117, 108, 108] then "null" else ""
  jsonLoads := fun s => if s = "null" then .ok .none else .error ()
  urlParse := fun _ => ⟨Option.none, .ok Option.none, ""⟩
  pctUnquote := id
  listingFetch := .error ()
  classifyFetch := fun _ => Option.none
  subFetch := fun _ => Option.none
  tcpConnect := fun _ _ => Option.none

/-- C10 counterexample: `decode_vmess_json_from_node` returns `None` on a
payload whose base64 path succeeds (yielding JSON `null`), so "returns None
only when both paths fail" is false as stated. -/
theorem decode_vmess_null_counterexample :
    decode_vmess_json_from_node E10 "vmess://bnVsbA==" = PyVal.none ∧
    firstPathResult E10 "vmess://bnVsbA==" = .ok PyVal.none := by
  exact ⟨rfl, rfl⟩

/-- C10 (amended): when the base64 path fails and the raw payload parses as
JSON, the parsed value is returned; `None` is returned exactly when the
base64 path fails and the fallback fails or is skipped, or when a path
succeeds but its parsed JSON value is `null` itself. -/
theorem decode_vmess_fallback_amended (E : Ext) (node : String) (v : PyVal) :
    (firstPathResult E node = .error () → pyStartsWith node "vmess://" = true →
      E.jsonLoads (pyStrip (strDrop node 8)) = .ok v →
      decode_vmess_json_from_node E node = v) ∧
    (decode_vmess_json_from_node E node = PyVal.none →
      firstPathResult E node = .ok PyVal.none ∨
      (firstPathResult E node = .error () ∧
        (pyStartsWith node "vmess://" = false ∨
         E.jsonLoads (pyStrip (strDrop node 8)) = .error () ∨
         E.jsonLoads (pyStrip (strDrop node 8)) = .ok PyVal.none))) := by
  constructor
  · intro h1 h2 h3
    unfold decode_vmess_json_from_node
    rw [h1, if_pos h2, h3]
  · intro h
    unfold decode_vmess_json_from_node at h
    cases hf : firstPathResult E node with
    | ok w =>
      rw [hf] at h
      exact Or.inl (congrArg Except.ok h)
    | error u =>
      cases u
      rw [hf] at h
      refine Or.inr ⟨rfl, ?_⟩
      cases hs : pyStartsWith node "vmess://" with
      | false => exact Or.inl rfl
      | true =>
        rw [if_pos hs] at h
        cases hj : E.jsonLoads (pyStrip (strDrop node 8)) with
        | ok w =>
          rw [hj] at h
          exact Or.inr (Or.inr (congrArg Except.ok h))
        | error u2 => cases u2; exact Or.inr (Or.inl rfl)

/-- Environment realising the vmess payload `12345`: padding repair really
raises (`base64.b64decode("12345===")` is a `binascii` error) while
`json.loads("12345")` parses the integer, so the fallback path fires. -/
def E10b : Ext where
  b64decode := fun _ => .error ()
  utf8ignore := fun _ => ""
  jsonLoads := fun s => if s = "12345" then .ok (.int 12345) else .error ()
  urlParse := fun _ => ⟨Option.none, .ok Option.none, ""⟩
  pctUnquote := id
  listingFetch := .error ()
  classifyFetch := fun _ => Option.none
  subFetch := fun _ => Option.none
  tcpConnect := fun _ _ => Option.none

/-- C10 witness: the fallback branch firing on `E10b` (base64 fails, the
raw payload parses as JSON). -/
theorem decode_vmess_fallback_amended_witness :
    firstPathResult E10b "vmess://12345" = .error () ∧
    E10b.jsonLoads (pyStrip (strDrop "vmess://12345" 8)) = .ok (.int 12345) ∧
    decode_vmess_json_from_node E10b "vmess://12345" = .int 12345 :=
  ⟨rfl, rfl,
   (decode_vmess_fallback_amended E10b "vmess://12345" (.int 12345)).1
     rfl (by decide) rfl⟩

/-! ## Pipeline inversion helpers -/

/-- Unfolding of `mainRun` when the listing fetch succeeded. -/
theorem mainRun_ok (E : Ext) (shuffle : List Candidate → List Candidate)
    (html : String) (hl : E.listingFetch = .ok html) :
    mainRun E shuffle =
      (if (subscriptionUrls E html).isEmpty then .noSources
       else if anyParseError E (allNodesOf E html) then .crashed
       else if (candidatesOf E (allNodesOf E html)).isEmpty then .noQuotaSurvivors
       else if (usableOf E (shuffle (candidatesOf E (allNodesOf E html)))).isEmpty then
         .noLatencySurvivors
       else
         .wrote ((sortRanked
           (usableOf E (shuffle (candidatesOf E (allNodesOf E html))))).map Ranked.node)) := by
  unfold mainRun
  rw [hl]

/-- Unfolding of `mainRun` when the listing fetch failed. -/
theorem mainRun_error (E : Ext) (shuffle : List Candidate → List Candidate)
    (u : Unit) (hl : E.listingFetch = .error u) : mainRun E shuffle = .fetchFailed := by
  unfold mainRun
  rw [hl]

/-- Membership in the quota-filter survivors. -/
theorem mem_candidatesOf (E : Ext) (nodes : List String) (c : Candidate) :
    c ∈ candidatesOf E nodes ↔
      c.node ∈ nodes ∧
      parse_node_remark_and_remaining E c.node = .ok (c.remark, some c.remain) ∧
      minRemainBytes ≤ c.remain := by
  unfold candidatesOf
  rw [List.mem_filterMap]
  constructor
  · rintro ⟨n, hn, hf⟩
    cases hp : parse_node_remark_and_remaining E n with
    | error u => rw [hp] at hf; exact Option.noConfusion hf
    | ok pr =>
      obtain ⟨r, rb⟩ := pr
      cases rb with
      | none => rw [hp] at hf; exact Option.noConfusion hf
      | some b =>
        rw [hp] at hf
        replace hf :
            (if minRemainBytes ≤ b then some (⟨n, b, r⟩ : Candidate) else Option.none) =
              some c := hf
        by_cases hb : minRemainBytes ≤ b
        · rw [if_pos hb] at hf
          injection hf with hf
          subst hf
          exact ⟨hn, hp, hb⟩
        · rw [if_neg hb] at hf; exact Option.noConfusion hf
  · rintro ⟨hn, hp, hb⟩
    refine ⟨c.node, hn, ?_⟩
    rw [hp]
    show (if minRemainBytes ≤ c.remain then some (⟨c.node, c.remain, c.remark⟩ : Candidate)
      else Option.none) = some c
    rw [if_pos hb]

/-- Membership in the probe survivors. -/
theorem mem_usableOf (E : Ext) (cands : List Candidate) (r : Ranked) :
    r ∈ usableOf E cands ↔
      ∃ c ∈ cands, ∃ lat, testLatency E c.node = some lat ∧ lat ≤ maxLatency ∧
        r = ⟨lat, c.node, c.remain, c.remark⟩ := by
  unfold usableOf
  rw [List.mem_filterMap]
  constructor
  · rintro ⟨c, hc, hf⟩
    cases ht : testLatency E c.node with
    | none => rw [ht] at hf; exact Option.noConfusion hf
    | some lat =>
      rw [ht] at hf
      replace hf :
          (if lat ≤ maxLatency then some (⟨lat, c.node, c.remain, c.remark⟩ : Ranked)
            else Option.none) = some r := hf
      by_cases hle : lat ≤ maxLatency
      · rw [if_pos hle] at hf
        injection hf with hf
        exact ⟨c, hc, lat, ht, hle, hf.symm⟩
      · rw [if_neg hle] at hf; exact Option.noConfusion hf
  · rintro ⟨c, hc, lat, ht, hle, rfl⟩
    refine ⟨c, hc, ?_⟩
    rw [ht]
    show (if lat ≤ maxLatency then some (⟨lat, c.node, c.remain, c.remark⟩ : Ranked)
      else Option.none) = some ⟨lat, c.node, c.remain, c.remark⟩
    rw [if_pos hle]

/-! ## C2: exit behaviour of the empty-result outcomes -/

/-- Environment whose listing page is empty: discovery yields no sources. -/
def E2ns : Ext := { E0 with listingFetch := .ok "" }

/-- C2 counterexample: the zero-sources outcome terminates with exit
status 1 (`sys.exit(1)` at the `subscription_urls` check), a failure exit —
refuting the claim that all three empty-result outcomes are non-error
exits. -/
theorem empty_result_exit_counterexample :
    mainRun E2ns id = RunOutcome.noSources ∧ exitCode (mainRun E2ns id) = 1 :=
  ⟨rfl, rfl⟩

/-- C2 (amended): the quota-empty and probe-empty outcomes terminate the
run cleanly with exit status 0; the zero-sources outcome also terminates
the run early and deliberately (not a crash), but with failure exit
status 1. -/
theorem empty_result_exits_amended (E : Ext)
    (shuffle : List Candidate → List Candidate) (html : String)
    (hl : E.listingFetch = .ok html) :
    (subscriptionUrls E html = [] →
      mainRun E shuffle = .noSources ∧ exitCode (mainRun E shuffle) = 1) ∧
    (subscriptionUrls E html ≠ [] → anyParseError E (allNodesOf E html) = false →
      candidatesOf E (allNodesOf E html) = [] →
      mainRun E shuffle = .noQuotaSurvivors ∧ exitCode (mainRun E shuffle) = 0) ∧
    (subscriptionUrls E html ≠ [] → anyParseError E (allNodesOf E html) = false →
      candidatesOf E (allNodesOf E html) ≠ [] →
      usableOf E (shuffle (candidatesOf E (allNodesOf E html))) = [] →
      mainRun E shuffle = .noLatencySurvivors ∧ exitCode (mainRun E shuffle) = 0) := by
  have hm := mainRun_ok E shuffle html hl
  refine ⟨?_, ?_, ?_⟩
  · intro h
    rw [hm, h]
    exact ⟨rfl, rfl⟩
  · intro h1 h2 h3
    have hne : (subscriptionUrls E html).isEmpty = false := by
      cases hsub : subscriptionUrls E html with
      | nil => exact absurd hsub h1
      | cons a l => rfl
    rw [hm, hne, h2, h3]
    exact ⟨rfl, rfl⟩
  · intro h1 h2 h3 h4
    have hne : (subscriptionUrls E html).isEmpty = false := by
      cases hsub : subscriptionUrls E html with
      | nil => exact absurd hsub h1
      | cons a l => rfl
    have hcne : (candidatesOf E (allNodesOf E html)).isEmpty = false := by
      cases hsub : candidatesOf E (allNodesOf E html) with
      | nil => exact absurd hsub h3
      | cons a l => rfl
    rw [hm, hne, h2, hcne, h4]
    exact ⟨rfl, rfl⟩

/-- Environment reaching the no-quota-survivors outcome: one subscription
yields one trojan node carrying no quota annotation. -/
def E2nq : Ext :=
  { E0 with
    listingFetch := .ok "http://a"
    classifyFetch := fun _ => some "trojan://x"
    subFetch := fun _ => some "trojan://x" }

/-- Environment reaching the no-latency-survivors outcome: one node passes
the quota filter but its probe fails (the TCP oracle never connects). -/
def E2nl : Ext :=
  { E0 with
    listingFetch := .ok "http://a"
    classifyFetch := fun _ => some "trojan://x"
    subFetch := fun _ => some "trojan://n@h:80#剩余流量:6GB"
    urlParse := fun n =>
      if n = "trojan://n@h:80#剩余流量:6GB" then
        ⟨some "h", .ok (some 80), "剩余流量:6GB"⟩
      else ⟨Option.none, .ok Option.none, ""⟩ }

/-- C2 witness: the three empty-result scenarios realised concretely, with
their exit codes. -/
theorem empty_result_exits_amended_witness :
    (mainRun E2ns id = .noSources ∧ exitCode (mainRun E2ns id) = 1) ∧
    (mainRun E2nq id = .noQuotaSurvivors ∧ exitCode (mainRun E2nq id) = 0) ∧
    (mainRun E2nl id = .noLatencySurvivors ∧ exitCode (mainRun E2nl id) = 0) :=
  ⟨(empty_result_exits_amended E2ns id "" rfl).1 (by decide),
   (empty_result_exits_amended E2nq id "http://a" rfl).2.1
     (by decide) (by decide) (by rfl),
   (empty_result_exits_amended E2nl id "http://a" rfl).2.2
     (by decide) (by decide)
     (by
       intro hc
       rw [show candidatesOf E2nl (allNodesOf E2nl "http://a") =
           [⟨"trojan://n@h:80#剩余流量:6GB", 6442450944, PyVal.str "剩余流量:6GB"⟩]
         from by with_unfolding_all rfl] at hc
       exact List.noConfusion hc)
     (by with_unfolding_all rfl)⟩

/-! ## C9: no partial output on empty-result terminations -/

/-- C9: the empty-result terminations write no file at all (consistently:
the output file is opened only after both filters and the sort complete),
and the `wrote` outcome writes the single complete file with a nonempty
line list. -/
theorem empty_result_writes_nothing (E : Ext)
    (shuffle : List Candidate → List Candidate) :
    ((mainRun E shuffle = .noSources ∨ mainRun E shuffle = .noQuotaSurvivors ∨
        mainRun E shuffle = .noLatencySurvivors) →
      writesOf (mainRun E shuffle) = []) ∧
    (∀ lines, mainRun E shuffle = .wrote lines →
      lines ≠ [] ∧ writesOf (mainRun E shuffle) = [(OUTPUT_FILE, fileText lines)]) := by
  constructor
  · rintro (h | h | h) <;> rw [h] <;> rfl
  · intro lines hw
    have hw0 := hw
    refine ⟨?_, by rw [hw0]; rfl⟩
    cases hl : E.listingFetch with
    | error u =>
      rw [mainRun_error E shuffle u hl] at hw
      exact absurd hw (by simp)
    | ok html =>
      rw [mainRun_ok E shuffle html hl] at hw
      split_ifs at hw with h1 h2 h3 h4
      all_goals cases hw
      intro hnil
      have hs0 : sortRanked (usableOf E (shuffle (candidatesOf E (allNodesOf E html)))) =
          [] := List.map_eq_nil_iff.mp hnil
      have hperm := List.perm_insertionSort latLe
        (usableOf E (shuffle (candidatesOf E (allNodesOf E html))))
      rw [sortRanked] at hs0
      rw [hs0] at hperm
      have husable : usableOf E (shuffle (candidatesOf E (allNodesOf E html))) = [] :=
        (hperm.symm).eq_nil
      exact h4 (by rw [husable]; rfl)

/-! ## C1 and C3: the written output -/

/-- C1: a node URI appears in the written output exactly when it was
aggregated, its quota was parsed (not unknown) and is at least the
configured minimum in bytes (inclusive), and its TCP probe returned a
latency at most the configured maximum (inclusive). In particular unknown
quota and failed or timed-out probes (latency `None`) are dropped, and the
two threshold comparisons are `≥` and `≤`. -/
theorem output_filter_characterisation (E : Ext)
    (shuffle : List Candidate → List Candidate)
    (hs : ∀ l, List.Perm (shuffle l) l) (html : String)
    (hl : E.listingFetch = .ok html) (lines : List String)
    (hw : mainRun E shuffle = .wrote lines) (node : String) :
    node ∈ lines ↔
      node ∈ allNodesOf E html ∧
      ∃ r rb, parse_node_remark_and_remaining E node = .ok (r, some rb) ∧
        minRemainBytes ≤ rb ∧
        ∃ lat, testLatency E node = some lat ∧ lat ≤ maxLatency := by
  rw [mainRun_ok E shuffle html hl] at hw
  split_ifs at hw with h1 h2 h3 h4
  all_goals cases hw
  have hperm := hs (candidatesOf E (allNodesOf E html))
  have hsort := List.perm_insertionSort latLe
    (usableOf E (shuffle (candidatesOf E (allNodesOf E html))))
  constructor
  · intro hmem
    obtain ⟨r, hr, hrn⟩ := List.mem_map.mp hmem
    have hr2 : r ∈ usableOf E (shuffle (candidatesOf E (allNodesOf E html))) :=
      hsort.mem_iff.mp hr
    obtain ⟨c, hc, lat, hlat, hle, rfl⟩ := (mem_usableOf E _ r).mp hr2
    have hc2 : c ∈ candidatesOf E (allNodesOf E html) := hperm.mem_iff.mp hc
    obtain ⟨hnode, hparse, hmin⟩ := (mem_candidatesOf E _ c).mp hc2
    subst hrn
    exact ⟨hnode, c.remark, c.remain, hparse, hmin, lat, hlat, hle⟩
  · rintro ⟨hnode, r, rb, hparse, hmin, lat, hlat, hle⟩
    have hc : (⟨node, rb, r⟩ : Candidate) ∈ candidatesOf E (allNodesOf E html) :=
      (mem_candidatesOf E _ _).mpr ⟨hnode, hparse, hmin⟩
    have hc2 : (⟨node, rb, r⟩ : Candidate) ∈
        shuffle (candidatesOf E (allNodesOf E html)) := hperm.mem_iff.mpr hc
    have hr : (⟨lat, node, rb, r⟩ : Ranked) ∈
        usableOf E (shuffle (candidatesOf E (allNodesOf E html))) :=
      (mem_usableOf E _ _).mpr ⟨⟨node, rb, r⟩, hc2, lat, hlat, hle, rfl⟩
    exact List.mem_map.mpr ⟨⟨lat, node, rb, r⟩, hsort.mem_iff.mpr hr, rfl⟩

/-- C3: a written output is exactly the survivor entries — one line per
survivor, the line being the node URI text only — in ascending latency
order (any earlier line's latency is at most any later line's). -/
theorem output_sorted_spec (E : Ext) (shuffle : List Candidate → List Candidate)
    (html : String) (hl : E.listingFetch = .ok html) (lines : List String)
    (hw : mainRun E shuffle = .wrote lines) :
    ∃ rs : List Ranked,
      lines = rs.map Ranked.node ∧
      List.Perm rs (usableOf E (shuffle (candidatesOf E (allNodesOf E html)))) ∧
      rs.Pairwise latLe ∧
      writesOf (mainRun E shuffle) = [(OUTPUT_FILE, fileText lines)] := by
  have hw0 := hw
  rw [mainRun_ok E shuffle html hl] at hw
  split_ifs at hw with h1 h2 h3 h4
  all_goals cases hw
  refine ⟨sortRanked (usableOf E (shuffle (candidatesOf E (allNodesOf E html)))),
    rfl, ?_, ?_, by rw [hw0]; rfl⟩
  · exact List.perm_insertionSort latLe _
  · exact List.sorted_insertionSort latLe _

/-- First survivor node of the end-to-end witness (probed at 9 s). -/
def nodeA : String := "trojan://n1@h1:80#剩余流量:6GB"

/-- Second survivor node of the end-to-end witness (probed at 4 s). -/
def nodeB : String := "trojan://n2@h2:80#剩余流量:7GB"

/-- End-to-end environment: one listing link, one subscription body with
two trojan nodes, both above the quota threshold, whose probes answer in
9 s and 4 s respectively. -/
def E1 : Ext :=
  { E0 with
    listingFetch := .ok "http://a"
    classifyFetch := fun _ => some "trojan://x"
    subFetch := fun _ => some (nodeA ++ " " ++ nodeB)
    urlParse := fun n =>
      if n = nodeA then ⟨some "h1", .ok (some 80), "剩余流量:6GB"⟩
      else if n = nodeB then ⟨some "h2", .ok (some 80), "剩余流量:7GB"⟩
      else ⟨Option.none, .ok Option.none, ""⟩
    tcpConnect := fun h _ =>
      if h = "h1" then some 9 else if h = "h2" then some 4 else Option.none }

/-- C1 witness: the end-to-end run writes both nodes and the
characterisation holds at `nodeA`. -/
theorem output_filter_characterisation_witness :
    mainRun E1 id = .wrote [nodeB, nodeA] ∧
    (nodeA ∈ [nodeB, nodeA] ↔
      nodeA ∈ allNodesOf E1 "http://a" ∧
      ∃ r rb, parse_node_remark_and_remaining E1 nodeA = .ok (r, some rb) ∧
        minRemainBytes ≤ rb ∧
        ∃ lat, testLatency E1 nodeA = some lat ∧ lat ≤ maxLatency) := by
  have hw : mainRun E1 id = .wrote [nodeB, nodeA] := by with_unfolding_all rfl
  exact ⟨hw, output_filter_characterisation E1 id (fun l => List.Perm.refl l)
    "http://a" rfl [nodeB, nodeA] hw nodeA⟩

/-- C3 witness: the 4 s node is written before the 9 s node. -/
theorem output_sorted_spec_witness :
    mainRun E1 id = .wrote [nodeB, nodeA] ∧
    ∃ rs : List Ranked,
      [nodeB, nodeA] = rs.map Ranked.node ∧
      List.Perm rs (usableOf E1 (id (candidatesOf E1 (allNodesOf E1 "http://a")))) ∧
      rs.Pairwise latLe ∧
      writesOf (mainRun E1 id) = [(OUTPUT_FILE, fileText [nodeB, nodeA])] := by
  have hw : mainRun E1 id = .wrote [nodeB, nodeA] := by with_unfolding_all rfl
  exact ⟨hw, output_sorted_spec E1 id "http://a" rfl [nodeB, nodeA] hw⟩

/-- C9 witness: an empty-result run writes nothing; the end-to-end run
writes the one complete file. -/
theorem empty_result_writes_nothing_witness :
    writesOf (mainRun E2nq id) = [] ∧
    [nodeB, nodeA] ≠ [] ∧
    writesOf (mainRun E1 id) = [(OUTPUT_FILE, fileText [nodeB, nodeA])] := by
  have hw : mainRun E1 id = .wrote [nodeB, nodeA] := by with_unfolding_all rfl
  have hq : mainRun E2nq id = .noQuotaSurvivors := by rfl
  refine ⟨(empty_result_writes_nothing E2nq id).1 (Or.inr (Or.inl hq)), ?_, ?_⟩
  · exact ((empty_result_writes_nothing E1 id).2 [nodeB, nodeA] hw).1
  · exact ((empty_result_writes_nothing E1 id).2 [nodeB, nodeA] hw).2

end MergePy
